import Mathlib

/-!
Verification of the `chatter_collapse` plugin.

The repository ships a declarative Odoo manifest (`__manifest__.py`) together
with a collapsible-panel toggle component described by the specification.
The manifest is embedded below verbatim as a Lean structure; the toggle
component itself (the asset `chatter_collapse/static/src/js/chatter_collapse.js`
referenced by the manifest) is not among the provided source files, so its
state machine is modelled from the specification.
-/

namespace ChatterCollapse

/-- CSS transition class applied to the panel root to obtain the smooth
open/close animation (spec section 4.1 and section 6, styling interface). -/
def transitionClass : String := "o_chatter_collapse_transition"

/-- CSS class representing the expanded display state of the panel. -/
def expandedClass : String := "o_chatter_expanded"

/-- Modelled from the spec: the class set the component keeps on the panel
root for a given value of `expanded` (the JS asset
`chatter_collapse/static/src/js/chatter_collapse.js` named by the manifest is
not among the provided sources). The transition class is present in both
resting states; the expanded class marks the open state. -/
def classesFor (v : Bool) : List String :=
  if v then [transitionClass, expandedClass] else [transitionClass]

/-- Modelled from the spec: the ToggleState entity of spec section 3.
`expanded` is the single boolean display flag; `visible` is the panel's
DOM visible/hidden presentation; `classes` is the class set on the panel
root; `animations` counts transition-animation starts, so that
"no animation restart" is expressible. -/
structure ToggleState where
  expanded : Bool
  visible : Bool
  classes : List String
  animations : Nat
deriving DecidableEq, Repr

/-- Modelled from the spec: `setExpanded(value)` of spec section 4.1.
Setting to the current value produces no change at all; otherwise the flag
and the DOM presentation are updated together and one transition animation
is triggered. -/
def setExpanded (s : ToggleState) (v : Bool) : ToggleState :=
  if s.expanded = v then s
  else { expanded := v, visible := v, classes := classesFor v,
         animations := s.animations + 1 }

/-- Modelled from the spec: `toggle()` of spec section 4.1 flips `expanded`
and applies the presentation for the new state. -/
def toggle (s : ToggleState) : ToggleState :=
  setExpanded s (!s.expanded)

/-- Modelled from the spec: the component state right after attaching to a
rendered panel — closed by default (spec section 3, initial value false). -/
def attachState : ToggleState :=
  { expanded := false, visible := false, classes := classesFor false,
    animations := 0 }

/-- Modelled from the spec: the state after `n` trigger clicks starting from
the freshly attached state, one `toggle()` per single-threaded event turn
(spec section 5). -/
def clicks : Nat → ToggleState
  | 0 => attachState
  | n + 1 => toggle (clicks n)

/-- The invariant of spec section 3: the `expanded` flag always reflects the
panel's visible/hidden DOM presentation. -/
def synced (s : ToggleState) : Prop := s.visible = s.expanded

/-- Full well-formedness of a component state: flag and DOM presentation
agree, and the class set is the one the component maintains for the current
flag value. -/
def wellFormed (s : ToggleState) : Prop :=
  s.visible = s.expanded ∧ s.classes = classesFor s.expanded

/-- States reachable from the freshly attached component by the two
mutating operations. -/
inductive Reachable : ToggleState → Prop where
  | init : Reachable attachState
  | toggleStep {s : ToggleState} : Reachable s → Reachable (toggle s)
  | setStep {s : ToggleState} {v : Bool} : Reachable s → Reachable (setExpanded s v)

/-- A DOM element, identified opaquely. -/
structure Element where
  id : Nat
deriving DecidableEq, Repr

/-- A registered click listener, recording its target element. -/
structure Listener where
  target : Nat
deriving DecidableEq, Repr

/-- Modelled from the spec: `attach(panel, trigger)` of spec sections 4.1
and 7 (the JS asset is not among the provided sources). The result is the
list of listeners registered; a missing panel or trigger is handled by
silently skipping attachment, never by raising an error, so the error
branch of `Except` is never used. -/
def attach (panel trigger : Option Element) : Except String (List Listener) :=
  match panel, trigger with
  | some _, some t => Except.ok [{ target := t.id }]
  | _, _ => Except.ok []

/-- Modelled from the spec: the component attached to an opaque host widget
(spec section 6). The host's internal state has an arbitrary type `H`; the
component only holds a reference to it alongside its own UI state. -/
structure Attached (H : Type) where
  host : H
  ui : ToggleState

/-- Modelled from the spec: `toggle()` lifted to the attached component —
it only rewrites the component's own UI state. -/
def toggleAttached {H : Type} (c : Attached H) : Attached H :=
  { c with ui := toggle c.ui }

/-- Modelled from the spec: `setExpanded(value)` lifted to the attached
component — it only rewrites the component's own UI state. -/
def setExpandedAttached {H : Type} (c : Attached H) (v : Bool) : Attached H :=
  { c with ui := setExpanded c.ui v }

/-- The Odoo module manifest data model: the fields declared by
`src/chatter_collapse/__manifest__.py`. -/
structure Manifest where
  name : String
  version : String
  category : String
  summary : String
  description : String
  author : String
  depends : List String
  data : List String
  assets : List (String × List String)
  images : List String
  installable : Bool
  application : Bool
  auto_install : Bool
  license : String
deriving Repr

/-- The manifest of this module, transcribed from
`src/chatter_collapse/__manifest__.py`. -/
def chatter_collapse : Manifest :=
  { name := "Chatter Collapse"
    version := "17.0.2.1.0"
    category := "Tools"
    summary := "Make chatter collapsible and closed by default"
    description := "\n        This module enhances the Odoo chatter functionality by making it collapsible.\n        The chatter will be closed by default and can be opened when needed.\n        \n        Features:\n        - Collapsible chatter with smooth animations\n        - Closed by default to save screen space\n        - Toggle button to expand/collapse\n        - Maintains functionality when expanded\n    "
    author := "Farhat Boujlida"
    depends := ["mail", "web"]
    data := ["views/assets.xml"]
    assets := [("web.assets_backend",
      ["chatter_collapse/static/src/js/chatter_collapse.js",
       "chatter_collapse/static/src/css/chatter_collapse.css"])]
    images := ["static/description/banner.png"]
    installable := true
    application := false
    auto_install := false
    license := "LGPL-3" }

/-- Modelled from the spec: the host framework loads a module only when
every module it depends on is already present (the dependency mechanism
itself belongs to the host framework, outside this repository). -/
def canLoad (present : List String) (m : Manifest) : Bool :=
  m.depends.all fun d => present.contains d

/- ### Helper lemmas -/

theorem setExpanded_expanded (s : ToggleState) (v : Bool) :
    (setExpanded s v).expanded = v := by
  cases s with
  | mk e vis c a => cases e <;> cases v <;> rfl

theorem toggle_expanded (s : ToggleState) : (toggle s).expanded = !s.expanded := by
  cases s with
  | mk e vis c a => cases e <;> rfl

theorem setExpanded_self (s : ToggleState) (v : Bool) (h : s.expanded = v) :
    setExpanded s v = s := by
  unfold setExpanded
  rw [if_pos h]

theorem setExpanded_wellFormed (s : ToggleState) (v : Bool) (h : wellFormed s) :
    wellFormed (setExpanded s v) := by
  by_cases hv : s.expanded = v
  · unfold setExpanded
    rw [if_pos hv]
    exact h
  · unfold setExpanded
    rw [if_neg hv]
    exact ⟨rfl, rfl⟩

theorem reachable_wellFormed (s : ToggleState) (h : Reachable s) : wellFormed s := by
  induction h with
  | init => exact ⟨rfl, rfl⟩
  | toggleStep _ ih =>
    exact setExpanded_wellFormed _ _ ih
  | setStep _ ih =>
    exact setExpanded_wellFormed _ _ ih

theorem double_toggle (s : ToggleState) (h : wellFormed s) :
    (toggle (toggle s)).expanded = s.expanded ∧
    (toggle (toggle s)).visible = s.visible ∧
    (toggle (toggle s)).classes = s.classes := by
  obtain ⟨h1, h2⟩ := h
  cases s with
  | mk e v c a =>
    simp only at h1 h2
    cases e with
    | false =>
      subst h1; subst h2
      exact ⟨rfl, rfl, rfl⟩
    | true =>
      subst h1; subst h2
      exact ⟨rfl, rfl, rfl⟩

theorem clicks_reachable : ∀ n : Nat, Reachable (clicks n)
  | 0 => Reachable.init
  | n + 1 => Reachable.toggleStep (clicks_reachable n)

theorem clicks_expanded : ∀ n : Nat, (clicks n).expanded = decide (n % 2 = 1)
  | 0 => rfl
  | n + 1 => by
    show (toggle (clicks n)).expanded = decide ((n + 1) % 2 = 1)
    rw [toggle_expanded, clicks_expanded n]
    rcases Nat.mod_two_eq_zero_or_one n with h | h <;>
      simp [Nat.add_mod, h]

/- ### Claim theorems -/

/-- C1: the component's `expanded` state starts out false — on a fresh
attach the panel is present with `expanded = false` and is visually
hidden/collapsed. -/
theorem initial_state_collapsed :
    attachState.expanded = false ∧ attachState.visible = false :=
  ⟨rfl, rfl⟩

/-- C2: `toggle()` is an involution on reachable states — one call flips
`expanded`, two calls restore the original `expanded` value, visible state
and class set; and after any even number of trigger clicks from the initial
state, `expanded` is false again. -/
theorem toggle_involution :
    (∀ s : ToggleState, Reachable s →
      (toggle s).expanded = !s.expanded ∧
      (toggle (toggle s)).expanded = s.expanded ∧
      (toggle (toggle s)).visible = s.visible ∧
      (toggle (toggle s)).classes = s.classes) ∧
    (∀ k : Nat, (clicks (2 * k)).expanded = false) := by
  constructor
  · intro s hs
    have hw := reachable_wellFormed s hs
    obtain ⟨h1, h2, h3⟩ := double_toggle s hw
    exact ⟨toggle_expanded s, h1, h2, h3⟩
  · intro k
    rw [clicks_expanded]
    simp [Nat.mul_mod_right]

/-- Witness for C2 at the initial state and at the even length 2. -/
theorem toggle_involution_witness :
    (toggle attachState).expanded = !attachState.expanded ∧
    (clicks (2 * 1)).expanded = false :=
  ⟨(toggle_involution.1 attachState Reachable.init).1,
   toggle_involution.2 1⟩

/-- C3: `setExpanded(value)` is idempotent — when `expanded` already equals
`value` the call changes nothing (no visible change, no class change, no
animation restart), and a repeated call with the same value is absorbed. -/
theorem setExpanded_idempotent :
    (∀ (s : ToggleState) (v : Bool), s.expanded = v → setExpanded s v = s) ∧
    (∀ (s : ToggleState) (v : Bool),
      setExpanded (setExpanded s v) v = setExpanded s v) := by
  refine ⟨setExpanded_self, fun s v => ?_⟩
  exact setExpanded_self _ _ (setExpanded_expanded s v)

/-- Witness for C3: setting the freshly attached state to its current
value false leaves it unchanged. -/
theorem setExpanded_idempotent_witness :
    setExpanded attachState false = attachState :=
  setExpanded_idempotent.1 attachState false rfl

/-- C4: when the panel or the trigger element is absent, `attach` is a
no-op — it returns successfully (no error surfaces) and registers no
listener. -/
theorem attach_missing_noop :
    ∀ panel trigger : Option Element,
      panel = none ∨ trigger = none →
      attach panel trigger = Except.ok [] := by
  intro panel trigger h
  rcases h with h | h
  · subst h
    cases trigger <;> rfl
  · subst h
    cases panel <;> rfl

/-- Witness for C4: attaching on a page with no panel element. -/
theorem attach_missing_noop_witness :
    attach none (some ⟨0⟩) = Except.ok ([] : List Listener) :=
  attach_missing_noop none (some ⟨0⟩) (Or.inl rfl)

/-- C5: the flag/DOM synchronization invariant holds initially and is
preserved by every mutating operation — `setExpanded` and `toggle` each
update the flag and the DOM presentation together, so no reachable state is
desynchronized. -/
theorem flag_dom_invariant :
    synced attachState ∧
    (∀ (s : ToggleState) (v : Bool), synced s → synced (setExpanded s v)) ∧
    (∀ s : ToggleState, synced s → synced (toggle s)) := by
  have hset : ∀ (s : ToggleState) (v : Bool), synced s → synced (setExpanded s v) := by
    intro s v h
    by_cases hv : s.expanded = v
    · unfold setExpanded
      rw [if_pos hv]
      exact h
    · unfold setExpanded
      rw [if_neg hv]
      rfl
  exact ⟨rfl, hset, fun s h => hset s (!s.expanded) h⟩

/-- Witness for C5 at the initial state. -/
theorem flag_dom_invariant_witness :
    synced (toggle attachState) :=
  flag_dom_invariant.2.2 attachState rfl

/-- C6: from the initial attached state, one trigger click yields
`expanded = true`, makes the panel visible, and the transition class is
applied on the panel root. -/
theorem single_click_expands :
    (toggle attachState).expanded = true ∧
    (toggle attachState).visible = true ∧
    transitionClass ∈ (toggle attachState).classes := by
  refine ⟨rfl, rfl, ?_⟩
  simp [toggle, setExpanded, attachState, classesFor]

/-- C7: after any finite sequence of n trigger clicks processed one per
event turn from the initial state, `expanded` equals (n is odd), and the
state is never corrupted: the flag and the DOM presentation agree after
every click. -/
theorem click_sequence_parity (n : Nat) :
    (clicks n).expanded = decide (n % 2 = 1) ∧
    (clicks n).visible = (clicks n).expanded :=
  ⟨clicks_expanded n, (reachable_wellFormed _ (clicks_reachable n)).1⟩

/-- C8: frame condition — neither `toggle` nor `setExpanded` modifies the
host widget's internal state; each rewrites only the component's own UI
presentation state. -/
theorem host_state_frame :
    ∀ (H : Type) (c : Attached H),
      (toggleAttached c).host = c.host ∧
      ∀ v : Bool, (setExpandedAttached c v).host = c.host :=
  fun _ _ => ⟨rfl, fun _ => rfl⟩

/-- C9: the manifest's dependency list is exactly ["mail", "web"], so under
the host framework's loading rule the module can only be loaded when both
the mail (chatter) module and the web client are present. -/
theorem manifest_depends_mail_web :
    chatter_collapse.depends = ["mail", "web"] ∧
    ∀ present : List String,
      canLoad present chatter_collapse = true →
      "mail" ∈ present ∧ "web" ∈ present := by
  refine ⟨rfl, fun present h => ?_⟩
  simp [canLoad, chatter_collapse] at h
  exact ⟨h.1, h.2⟩

/-- Witness for C9: with exactly the two host modules present the module
loads, and both are indeed in the present list. -/
theorem manifest_depends_mail_web_witness :
    "mail" ∈ (["mail", "web"] : List String) ∧
    "web" ∈ (["mail", "web"] : List String) :=
  manifest_depends_mail_web.2 ["mail", "web"] (by decide)

/-- C10: the manifest marks the module installable but neither an
application nor auto-installed, so it must be installed explicitly. -/
theorem manifest_explicit_install :
    chatter_collapse.installable = true ∧
    chatter_collapse.application = false ∧
    chatter_collapse.auto_install = false :=
  ⟨rfl, rfl, rfl⟩

end ChatterCollapse
